import Mathlib

/-!
Verification of the canvas transform / coordinate-mapping and compositing core of
the Creaza image editor (frontend/src/components/Canvas.tsx).

Geometry is modelled over the real numbers (the source computes with JS doubles);
pixel buffers (`ImageData`) are modelled as a width, a height and a pixel lookup
function; the 2D drawing surface (`<canvas>`) is modelled likewise.  Commits to
the Layer Store are modelled as the argument triple that the Canvas component
passes to its `onLayerUpdate` callback.
-/

namespace Creaza

/-- A point in 2D space (display-space or layer-local space), over ℝ. -/
@[ext]
structure Pt where
  x : ℝ
  y : ℝ

/-- The layer transform record `{x, y, scaleX, scaleY, rotation}` of `Layer.transform`
(translation in display pixels, per-axis scale factors, rotation in degrees). -/
structure Transform where
  x : ℝ
  y : ℝ
  scaleX : ℝ
  scaleY : ℝ
  rotation : ℝ

/-- The default transform `{ x: 0, y: 0, scaleX: 1, scaleY: 1, rotation: 0 }`
substituted by `activeLayerData.transform || {...}` whenever a layer has no
transform set. -/
def defaultTransform : Transform := ⟨0, 0, 1, 1, 0⟩

/-- An RGBA pixel value. -/
structure Color where
  r : ℕ
  g : ℕ
  b : ℕ
  a : ℕ
deriving DecidableEq

/-- Opaque white, the background fill `ctx.fillStyle = 'white'`. -/
def white : Color := ⟨255, 255, 255, 255⟩

/-- Fully transparent black, what canvas `getImageData` reports outside the surface. -/
def transparent : Color := ⟨0, 0, 0, 0⟩

/-- An `ImageData` pixel buffer: dimensions plus a pixel lookup function. -/
structure ImageData where
  width : ℕ
  height : ℕ
  pix : ℕ → ℕ → Color

/-- A 2D drawing surface (an HTML canvas): dimensions plus current pixel contents. -/
structure Surface where
  width : ℕ
  height : ℕ
  pix : ℕ → ℕ → Color

/-- A layer of the Layer Store, as in the `Layer` interface of Canvas.tsx
(the filter-related fields play no role in the claims verified here). -/
structure Layer where
  id : String
  name : String
  visible : Bool
  opacity : ℝ
  blendMode : String
  imageData : Option ImageData
  transform : Option Transform

/-- One commit to the Layer Store: the argument triple of an `onLayerUpdate`
call `(layerId, imageData, transform?)`; an omitted third argument is `none`. -/
structure Commit where
  layerId : String
  imageData : Option ImageData
  transform : Option Transform

/-- `ctx.getImageData(x, y, w, h)`: read back a `w × h` rectangle of the surface;
pixels outside the surface read as transparent black. -/
def surfaceGetImageData (s : Surface) (x y w h : ℕ) : ImageData :=
  ⟨w, h, fun i j =>
    if i < w ∧ j < h ∧ x + i < s.width ∧ y + j < s.height then s.pix (x + i) (y + j)
    else transparent⟩

/-- `ctx.putImageData(d, x, y)`: write the buffer `d` into the surface with its
top-left corner at `(x, y)`, raw (no alpha blending, no transform). -/
def surfacePutImageData (s : Surface) (d : ImageData) (x y : ℕ) : Surface :=
  ⟨s.width, s.height, fun i j =>
    if x ≤ i ∧ i < x + d.width ∧ y ≤ j ∧ j < y + d.height then d.pix (i - x) (j - y)
    else s.pix i j⟩

/-- `ctx.fillStyle = 'white'; ctx.fillRect(0, 0, canvas.width, canvas.height)`:
clear the whole surface to opaque white. -/
def fillWhite (s : Surface) : Surface :=
  ⟨s.width, s.height, fun i j => if i < s.width ∧ j < s.height then white else s.pix i j⟩

/-- Rotation of a point about the origin by an angle in radians:
`(x, y) ↦ (x cos θ − y sin θ, x sin θ + y cos θ)`. -/
noncomputable def rotateRad (θ : ℝ) (p : Pt) : Pt :=
  ⟨p.x * Real.cos θ - p.y * Real.sin θ, p.x * Real.sin θ + p.y * Real.cos θ⟩

/-- `getLayerPos` of Canvas.tsx: convert a display-space (canvas) position to the
active layer's layer-local pixel coordinates by reversing the layer transform.
If the layer has no pixel buffer the position is returned unchanged; a missing
transform defaults to `defaultTransform`. -/
noncomputable def getLayerPos (canvasW canvasH : ℝ) (layer : Layer) (canvasPos : Pt) : Pt :=
  match layer.imageData with
  | none => canvasPos
  | some img =>
    let transform := layer.transform.getD defaultTransform
    let centerX := canvasW / 2 + transform.x
    let centerY := canvasH / 2 + transform.y
    let x := canvasPos.x - centerX
    let y := canvasPos.y - centerY
    let c := Real.cos (-transform.rotation * Real.pi / 180)
    let s := Real.sin (-transform.rotation * Real.pi / 180)
    let rotX := x * c - y * s
    let rotY := x * s + y * c
    ⟨rotX / |transform.scaleX| + (img.width : ℝ) / 2,
     rotY / |transform.scaleY| + (img.height : ℝ) / 2⟩

/-- The inverse mapping exactly as the specification words it (§4.1): subtract
`(displayCenterX + translateX, displayCenterY + translateY)`, rotate by
`-rotationDegrees`, divide by `(|scaleX|, |scaleY|)`, add
`(bufferWidth/2, bufferHeight/2)`. -/
noncomputable def inverseMapSpec (canvasW canvasH bufW bufH : ℝ) (t : Transform) (p : Pt) : Pt :=
  let translated : Pt := ⟨p.x - (canvasW / 2 + t.x), p.y - (canvasH / 2 + t.y)⟩
  let rotated := rotateRad (-t.rotation * Real.pi / 180) translated
  ⟨rotated.x / |t.scaleX| + bufW / 2, rotated.y / |t.scaleY| + bufH / 2⟩

/-- The forward mapping used by the compositor render effect of Canvas.tsx
(`ctx.translate(canvas.width/2 + t.x, canvas.height/2 + t.y); ctx.rotate(...);
ctx.scale(|scaleX|, |scaleY|); ctx.drawImage(layerCanvas, -w/2, -h/2)`):
a layer-local point is shifted so the buffer center is the origin, scaled by
the absolute scale factors, rotated by `rotation` degrees, then translated by
the display center plus the translation. -/
noncomputable def forwardMap (canvasW canvasH bufW bufH : ℝ) (t : Transform) (p : Pt) : Pt :=
  let centered : Pt := ⟨p.x - bufW / 2, p.y - bufH / 2⟩
  let scaled : Pt := ⟨|t.scaleX| * centered.x, |t.scaleY| * centered.y⟩
  let rotated := rotateRad (t.rotation * Real.pi / 180) scaled
  ⟨rotated.x + (canvasW / 2 + t.x), rotated.y + (canvasH / 2 + t.y)⟩

/-- The inverse mapping amended with the epsilon clamp that the specification's
contract prescribes (§4.1 edge case): the absolute scale is clamped below by
`1e-3` before dividing. -/
noncomputable def inverseMapClamped (canvasW canvasH bufW bufH : ℝ) (t : Transform) (p : Pt) :
    Pt :=
  let translated : Pt := ⟨p.x - (canvasW / 2 + t.x), p.y - (canvasH / 2 + t.y)⟩
  let rotated := rotateRad (-t.rotation * Real.pi / 180) translated
  ⟨rotated.x / max |t.scaleX| (1 / 1000) + bufW / 2,
   rotated.y / max |t.scaleY| (1 / 1000) + bufH / 2⟩

/-- The commit made by `handleMouseUp` for the brush and eraser tools: read back
the whole off-screen layer surface (`layerCtx.getImageData(0, 0, layerCanvas.width,
layerCanvas.height)` after the stroke) and pass it to `onLayerUpdate` together
with `activeLayerData.transform`, the layer's transform from before the stroke. -/
def brushEraserCommit (activeLayerId : String) (layer : Layer) (layerSurface : Surface) :
    Commit :=
  ⟨activeLayerId,
   some (surfaceGetImageData layerSurface 0 0 layerSurface.width layerSurface.height),
   layer.transform⟩

/-- The commit made by the text branch of `handleMouseDown`: after `fillText` has
drawn the pending string on the off-screen layer surface, read the whole surface
back and pass it to `onLayerUpdate` with `activeLayerData.transform` unchanged.
The rasterized text itself is the content of `surfaceAfterText`. -/
def textCommit (activeLayerId : String) (layer : Layer) (surfaceAfterText : Surface) :
    Commit :=
  ⟨activeLayerId,
   some (surfaceGetImageData surfaceAfterText 0 0 surfaceAfterText.width
      surfaceAfterText.height),
   layer.transform⟩

/-- The commit made on each move-tool drag sample in `handleMouseMove`: the
pointer delta is added to the transform's `x`/`y` and `updatedLayer.imageData!`
(the very buffer held by the layer) is passed through. -/
def moveCommit (activeLayerId : String) (layer : Layer) (deltaX deltaY : ℝ) : Commit :=
  let currentTransform := layer.transform.getD defaultTransform
  ⟨activeLayerId, layer.imageData,
   some { currentTransform with
            x := currentTransform.x + deltaX, y := currentTransform.y + deltaY }⟩

/-- The commit made on each rotate-tool sample (drag in `handleMouseMove`, the
rotation slider, and the ±90°/reset buttons share this shape): the transform's
`rotation` is replaced by the new angle and the layer's buffer is passed through. -/
def rotateCommit (activeLayerId : String) (layer : Layer) (newRotation : ℝ) : Commit :=
  let currentTransform := layer.transform.getD defaultTransform
  ⟨activeLayerId, layer.imageData, some { currentTransform with rotation := newRotation }⟩

/-- The commit made by the resize slider's `onChange` (and its Reset button with
`newScale = 1`): `scaleX` and `scaleY` are both replaced by the slider value and
the layer's buffer is passed through. -/
def resizeSliderCommit (activeLayerId : String) (layer : Layer) (newScale : ℝ) : Commit :=
  let currentTransform := layer.transform.getD defaultTransform
  ⟨activeLayerId, layer.imageData,
   some { currentTransform with scaleX := newScale, scaleY := newScale }⟩

/-- The new scale computed by the ctrl+wheel resize gesture:
`Math.max(0.1, Math.min(3, imageScale * (deltaY > 0 ? 0.9 : 1.1)))`. -/
noncomputable def wheelNewScale (imageScale : ℝ) (deltaYPositive : Bool) : ℝ :=
  max (1 / 10) (min 3 (imageScale * (if deltaYPositive then 9 / 10 else 11 / 10)))

/-- `ctx.drawImage(src, dx, dy, dw, dh)`: draw the buffer `src` scaled into the
destination rectangle; sampling is modelled nearest-neighbour (coordinates are
floored), which is all the claims below depend on. -/
noncomputable def drawImageScaled (s : Surface) (src : ImageData) (dx dy dw dh : ℝ) :
    Surface :=
  ⟨s.width, s.height, fun i j =>
    if dx ≤ (i : ℝ) ∧ (i : ℝ) < dx + dw ∧ dy ≤ (j : ℝ) ∧ (j : ℝ) < dy + dh then
      src.pix (Int.toNat ⌊((i : ℝ) - dx) * (src.width : ℝ) / dw⌋)
        (Int.toNat ⌊((j : ℝ) - dy) * (src.height : ℝ) / dh⌋)
    else s.pix i j⟩

/-- The commit made by the ctrl+wheel resize branch of `onWheel`: the layer's
buffer `img` is copied to a temp canvas, the display surface is cleared to white,
the temp canvas is drawn centered at `newScale` times its size, the whole display
surface is read back with `getImageData(0, 0, canvas.width, canvas.height)`, and
`onLayerUpdate(activeLayer, imageData)` is called with no transform argument. -/
noncomputable def wheelResizeCommit (activeLayerId : String) (canvas : Surface)
    (img : ImageData) (newScale : ℝ) : Commit :=
  let scaledWidth := (img.width : ℝ) * newScale
  let scaledHeight := (img.height : ℝ) * newScale
  let x := ((canvas.width : ℝ) - scaledWidth) / 2
  let y := ((canvas.height : ℝ) - scaledHeight) / 2
  let cleared := fillWhite canvas
  let drawn := drawImageScaled cleared img x y scaledWidth scaledHeight
  ⟨activeLayerId, some (surfaceGetImageData drawn 0 0 canvas.width canvas.height), none⟩

/-- IDL integer conversion applied by canvas `getImageData` to its (here
non-negative) arguments: truncation of the real coordinate. -/
noncomputable def toPix (r : ℝ) : ℕ := Int.toNat ⌊r⌋

/-- The commit made by the crop confirmation dialog's Apply button: read the
selected rectangle back from the rendered display surface, clear the surface to
white, put the cropped data at the top-left corner, read the whole surface back
as the new buffer, and call `onLayerUpdate(activeLayer, newImageData)` with no
transform argument. -/
noncomputable def cropApplyCommit (activeLayerId : String) (canvas : Surface)
    (cropStart cropEnd : Pt) : Commit :=
  let x := toPix (min cropStart.x cropEnd.x)
  let y := toPix (min cropStart.y cropEnd.y)
  let width := toPix |cropEnd.x - cropStart.x|
  let height := toPix |cropEnd.y - cropStart.y|
  let croppedData := surfaceGetImageData canvas x y width height
  let cleared := fillWhite canvas
  let pasted := surfacePutImageData cleared croppedData 0 0
  ⟨activeLayerId, some (surfaceGetImageData pasted 0 0 canvas.width canvas.height), none⟩

/-- Modelled from the spec: the Layer Store's `updateLayer` (provided by the
`useImageEditor` hook, whose source is not part of this repository snapshot)
replaces the layer's pixel buffer with the committed one and stores the committed
transform as-is, so a commit that omits the transform leaves the layer with no
transform ("resets transform state ... by virtue of replacing the whole visible
composition", spec §4.5; paint commits pass the old transform back unchanged,
spec §4.3). -/
def updateLayer (layer : Layer) (c : Commit) : Layer :=
  { layer with imageData := c.imageData, transform := c.transform }

/-- The transient per-gesture crop state of the Canvas component. -/
structure CropState where
  isCropping : Bool
  cropStart : Option Pt
  cropEnd : Option Pt
  showCropConfirm : Bool

/-- The crop branch of `handleMouseUp`: when a selection exists, a selection
wider and taller than 10 display pixels opens the confirmation dialog; otherwise
the gesture is abandoned (`isCropping` false, selection cleared).  Neither branch
calls `onLayerUpdate`; the returned `Option Commit` records that. -/
noncomputable def cropMouseUp (st : CropState) : CropState × Option Commit :=
  match st.cropStart, st.cropEnd with
  | some cropStart, some cropEnd =>
    let width := |cropEnd.x - cropStart.x|
    let height := |cropEnd.y - cropStart.y|
    if 10 < width ∧ 10 < height then
      ({ st with showCropConfirm := true }, none)
    else
      ({ st with isCropping := false, cropStart := none, cropEnd := none }, none)
  | _, _ => (st, none)

/-- One drawing operation issued by the compositor render effect on the display
surface. -/
inductive DrawOp where
  | clearWhite (w h : ℕ)
  | drawLayer (layerId : String) (img : ImageData) (t : Transform) (alpha : ℝ)
      (blend : String)

/-- What one run of the render effect produced: the drawing operations applied to
the display surface and the console log lines emitted. -/
structure RenderResult where
  ops : List DrawOp
  log : List String

/-- The compositing of the active layer inside the render effect's `try` block:
setting up the layer canvas and drawing it through the transform.  Drawing a
zero-sized layer canvas raises (the "ImageData size mismatch" failure class);
otherwise the layer is drawn with `globalAlpha = opacity` and the composite
operation set to the blend mode. -/
def compositeLayer (l : Layer) (img : ImageData) : Except String (List DrawOp) :=
  if img.width = 0 ∨ img.height = 0 then
    Except.error "InvalidStateError"
  else
    Except.ok [DrawOp.drawLayer l.id img (l.transform.getD defaultTransform) l.opacity
      l.blendMode]

/-- The compositor render effect of Canvas.tsx (re-run on every change to
`layers`/`activeLayer`): clear the display surface to white, then render only the
layer found for the active id — when it is visible and has a buffer — inside a
`try`/`catch` whose handler logs a size-mismatch message and draws nothing more. -/
def renderEffect (canvasW canvasH : ℕ) (layers : List Layer) (activeLayer : Option String) :
    RenderResult :=
  let clear := [DrawOp.clearWhite canvasW canvasH]
  match layers.find? (fun l => activeLayer = some l.id) with
  | some activeLayerData =>
    if activeLayerData.visible then
      match activeLayerData.imageData with
      | some img =>
        match compositeLayer activeLayerData img with
        | Except.ok ops => ⟨clear ++ ops, []⟩
        | Except.error _ =>
            ⟨clear, ["ImageData size mismatch for layer: " ++ activeLayerData.name]⟩
      | none => ⟨clear, []⟩
    else ⟨clear, []⟩
  | none => ⟨clear, []⟩

/-! ## Concrete fixtures used by witnesses and counterexamples -/

/-- A 100 × 100 all-white pixel buffer. -/
def imgA : ImageData := ⟨100, 100, fun _ _ => white⟩

/-- A layer holding `imgA` with transform `{x: 50, y: -30, scaleX: 1, scaleY: 1,
rotation: 45}` (the spec's §8 example transform). -/
def layerA : Layer := ⟨"layer-1", "Layer 1", true, 1, "source-over", some imgA,
  some ⟨50, -30, 1, 1, 45⟩⟩

/-- A transform whose `scaleX` is zero. -/
def tScaleZero : Transform := ⟨0, 0, 0, 1, 0⟩

/-- A layer holding `imgA` whose transform has `scaleX = 0`. -/
def layerScaleZero : Layer := ⟨"layer-1", "Layer 1", true, 1, "source-over", some imgA,
  some tScaleZero⟩

/-- A layer holding `imgA` with a nonzero, non-identity transform. -/
def layerB : Layer := ⟨"layer-1", "Layer 1", true, 1, "source-over", some imgA,
  some ⟨3, 5, 2, 3, 45⟩⟩

/-- A 400 × 300 all-white display surface. -/
def canvasA : Surface := ⟨400, 300, fun _ _ => white⟩

/-- A 400 × 300 display surface with position-dependent contents. -/
def canvasB : Surface := ⟨400, 300, fun i j => ⟨i % 256, j % 256, 0, 255⟩⟩

/-- A zero-sized pixel buffer (the realizable "size mismatch" input). -/
def imgZero : ImageData := ⟨0, 0, fun _ _ => transparent⟩

/-- A layer holding the zero-sized buffer. -/
def layerZeroImg : Layer := ⟨"layer-2", "Layer 2", true, 1, "source-over", some imgZero,
  none⟩

/-- An in-progress crop gesture whose selection is 5 × 20 display pixels. -/
def cropStateSmall : CropState := ⟨true, some ⟨0, 0⟩, some ⟨5, 20⟩, false⟩

/-- The `ImageData` carried by a commit (commits of the tools verified here always
carry one; the default is an empty buffer). -/
def committedData (c : Commit) : ImageData := c.imageData.getD ⟨0, 0, fun _ _ => transparent⟩

/-! ## Helper lemmas -/

/-- Unfolding `getLayerPos` on a layer that has a pixel buffer: it is exactly the
spec's four-step inverse mapping at the layer's transform (defaulted). -/
theorem getLayerPos_some (canvasW canvasH : ℝ) (layer : Layer) (img : ImageData)
    (h : layer.imageData = some img) (p : Pt) :
    getLayerPos canvasW canvasH layer p =
      inverseMapSpec canvasW canvasH (img.width : ℝ) (img.height : ℝ)
        (layer.transform.getD defaultTransform) p := by
  unfold getLayerPos inverseMapSpec rotateRad
  rw [h]

/-- Rotating by `-θ` and then by `θ` is the identity. -/
theorem rotateRad_rotateRad_neg (θ : ℝ) (p : Pt) : rotateRad θ (rotateRad (-θ) p) = p := by
  ext
  · simp only [rotateRad, Real.cos_neg, Real.sin_neg]
    ring_nf
    linear_combination p.x * Real.sin_sq_add_cos_sq θ
  · simp only [rotateRad, Real.cos_neg, Real.sin_neg]
    ring_nf
    linear_combination p.y * Real.sin_sq_add_cos_sq θ

/-- The forward mapping undoes the spec's inverse mapping whenever both scale
factors are nonzero. -/
theorem forwardMap_inverseMapSpec (canvasW canvasH bufW bufH : ℝ) (t : Transform)
    (hx : t.scaleX ≠ 0) (hy : t.scaleY ≠ 0) (p : Pt) :
    forwardMap canvasW canvasH bufW bufH t (inverseMapSpec canvasW canvasH bufW bufH t p) =
      p := by
  have hax : |t.scaleX| ≠ 0 := abs_ne_zero.mpr hx
  have hay : |t.scaleY| ≠ 0 := abs_ne_zero.mpr hy
  unfold forwardMap inverseMapSpec
  have hcancel :
      (⟨|t.scaleX| *
          ((rotateRad (-t.rotation * Real.pi / 180)
              ⟨p.x - (canvasW / 2 + t.x), p.y - (canvasH / 2 + t.y)⟩).x / |t.scaleX| +
            bufW / 2 - bufW / 2),
        |t.scaleY| *
          ((rotateRad (-t.rotation * Real.pi / 180)
              ⟨p.x - (canvasW / 2 + t.x), p.y - (canvasH / 2 + t.y)⟩).y / |t.scaleY| +
            bufH / 2 - bufH / 2)⟩ : Pt) =
      rotateRad (-t.rotation * Real.pi / 180)
        ⟨p.x - (canvasW / 2 + t.x), p.y - (canvasH / 2 + t.y)⟩ := by
    ext
    · dsimp only
      rw [add_sub_cancel_right, mul_comm, div_mul_cancel₀ _ hax]
    · dsimp only
      rw [add_sub_cancel_right, mul_comm, div_mul_cancel₀ _ hay]
  dsimp only
  rw [hcancel]
  rw [show -t.rotation * Real.pi / 180 = -(t.rotation * Real.pi / 180) by ring]
  rw [rotateRad_rotateRad_neg]
  ext
  · dsimp only
    ring
  · dsimp only
    ring

/-! ## Claims -/

/-- C1: for every layer that has a pixel buffer and every display-space point,
`getLayerPos` computes the layer-local point by subtracting
`(displayCenterX + translateX, displayCenterY + translateY)`, rotating by
`-rotationDegrees`, dividing by `(|scaleX|, |scaleY|)` and adding
`(bufferWidth/2, bufferHeight/2)`; a layer with no transform set is treated as
having the identity transform `{0, 0, 1, 1, 0}`. -/
theorem c1_getLayerPos_is_spec_inverse (canvasW canvasH : ℝ) (layer : Layer)
    (img : ImageData) (h : layer.imageData = some img) (p : Pt) :
    getLayerPos canvasW canvasH layer p =
      inverseMapSpec canvasW canvasH (img.width : ℝ) (img.height : ℝ)
        (layer.transform.getD ⟨0, 0, 1, 1, 0⟩) p :=
  getLayerPos_some canvasW canvasH layer img h p

/-- C1 witness: the theorem applied to a concrete layer and point. -/
theorem c1_witness :
    getLayerPos 400 300 layerA ⟨10, 20⟩ =
      inverseMapSpec 400 300 (imgA.width : ℝ) (imgA.height : ℝ)
        (layerA.transform.getD ⟨0, 0, 1, 1, 0⟩) ⟨10, 20⟩ :=
  c1_getLayerPos_is_spec_inverse 400 300 layerA imgA rfl ⟨10, 20⟩

/-- C2 counterexample: at `scaleX = 0` the code's inverse mapping differs from the
epsilon-clamped mapping the claim describes — `getLayerPos` divides by `|scaleX|`
directly, with no clamping. -/
theorem c2_counterexample :
    getLayerPos 400 300 layerScaleZero ⟨201, 150⟩ ≠
      inverseMapClamped 400 300 100 100 tScaleZero ⟨201, 150⟩ := by
  intro h
  have hx := congrArg Pt.x h
  simp only [getLayerPos, inverseMapClamped, rotateRad, layerScaleZero, tScaleZero, imgA,
    Option.getD_some] at hx
  norm_num at hx

/-- C2 amended: the code performs no epsilon clamping — `getLayerPos` divides
directly by `(|scaleX|, |scaleY|)`, and it coincides with the epsilon-clamped
inverse mapping exactly on the transforms the clamp would leave alone, namely
those with `|scaleX|` and `|scaleY|` at least `1e-3`. -/
theorem c2_amended_no_clamping (canvasW canvasH : ℝ) (layer : Layer) (img : ImageData)
    (h : layer.imageData = some img)
    (hx : 1 / 1000 ≤ |(layer.transform.getD defaultTransform).scaleX|)
    (hy : 1 / 1000 ≤ |(layer.transform.getD defaultTransform).scaleY|) (p : Pt) :
    getLayerPos canvasW canvasH layer p =
      inverseMapClamped canvasW canvasH (img.width : ℝ) (img.height : ℝ)
        (layer.transform.getD defaultTransform) p := by
  rw [getLayerPos_some canvasW canvasH layer img h p]
  unfold inverseMapSpec inverseMapClamped
  rw [max_eq_left hx, max_eq_left hy]

/-- C2 amended witness: the theorem applied to a concrete layer whose scales are
above the epsilon. -/
theorem c2_witness :
    getLayerPos 400 300 layerA ⟨10, 20⟩ =
      inverseMapClamped 400 300 (imgA.width : ℝ) (imgA.height : ℝ)
        (layerA.transform.getD defaultTransform) ⟨10, 20⟩ :=
  c2_amended_no_clamping 400 300 layerA imgA rfl (by norm_num [layerA])
    (by norm_num [layerA]) ⟨10, 20⟩

/-- C3: for every transform with nonzero scale factors and every display-space
point, the compositor's forward mapping applied to the result of the code's
inverse mapping (`getLayerPos`) yields the point back exactly (round-trip law);
zero scale — where the spec's clamp would have intervened — is excluded. -/
theorem c3_roundtrip (canvasW canvasH : ℝ) (layer : Layer) (img : ImageData)
    (t : Transform) (him : layer.imageData = some img) (ht : layer.transform = some t)
    (hx : t.scaleX ≠ 0) (hy : t.scaleY ≠ 0) (p : Pt) :
    forwardMap canvasW canvasH (img.width : ℝ) (img.height : ℝ) t
      (getLayerPos canvasW canvasH layer p) = p := by
  rw [getLayerPos_some canvasW canvasH layer img him p, ht]
  exact forwardMap_inverseMapSpec canvasW canvasH (img.width : ℝ) (img.height : ℝ) t hx hy p

/-- C3 witness: the round trip at a concrete transform (translate (3,5), scale
(2,3), rotation 45°) and point. -/
theorem c3_witness :
    forwardMap 400 300 (imgA.width : ℝ) (imgA.height : ℝ) ⟨3, 5, 2, 3, 45⟩
      (getLayerPos 400 300 layerB ⟨7, 11⟩) = ⟨7, 11⟩ :=
  c3_roundtrip 400 300 layerB imgA ⟨3, 5, 2, 3, 45⟩ rfl rfl (by norm_num) (by norm_num)
    ⟨7, 11⟩

/-- C4: every brush/eraser commit (`handleMouseUp`) and every text commit
(`handleMouseDown`, text branch) passes the layer's transform from before the
stroke to the Layer Store unchanged: paint only replaces pixel content. -/
theorem c4_paint_preserves_transform (activeLayerId : String) (layer : Layer)
    (strokeSurface textSurface : Surface) :
    (brushEraserCommit activeLayerId layer strokeSurface).transform = layer.transform ∧
    (textCommit activeLayerId layer textSurface).transform = layer.transform :=
  ⟨rfl, rfl⟩

/-- C5: every move-tool drag sample commits the previous transform with the
pointer delta added to `x`/`y`, all other fields unchanged, and passes the
layer's pixel buffer through identically. -/
theorem c5_move_commit (activeLayerId : String) (layer : Layer) (dx dy : ℝ) :
    (moveCommit activeLayerId layer dx dy).imageData = layer.imageData ∧
    (moveCommit activeLayerId layer dx dy).transform =
      some ⟨(layer.transform.getD defaultTransform).x + dx,
            (layer.transform.getD defaultTransform).y + dy,
            (layer.transform.getD defaultTransform).scaleX,
            (layer.transform.getD defaultTransform).scaleY,
            (layer.transform.getD defaultTransform).rotation⟩ :=
  ⟨rfl, rfl⟩

/-- C6 counterexample: the ctrl+wheel resize gesture does not pass the layer's
buffer through — at a concrete input it commits a freshly regenerated
display-sized buffer (and drops the transform), contradicting the claim that the
whole transform family never touches the pixel buffer. -/
theorem c6_counterexample :
    (wheelResizeCommit "layer-1" canvasA imgA (wheelNewScale 1 true)).imageData ≠
        layerA.imageData ∧
      (wheelResizeCommit "layer-1" canvasA imgA (wheelNewScale 1 true)).transform ≠
        layerA.transform := by
  constructor
  · intro h
    have hw := congrArg (fun o => (Option.map ImageData.width o).getD 0) h
    simp only [wheelResizeCommit, surfaceGetImageData, layerA, canvasA, imgA,
      Option.map_some, Option.getD_some] at hw
    norm_num at hw
  · intro h
    simp only [wheelResizeCommit, layerA] at h
    exact Option.noConfusion h

/-- C6 amended: the move tool, the rotate tool and the resize slider pass the
layer's current pixel buffer through unchanged and only replace the transform;
the ctrl+wheel resize is the exception: it commits a freshly read-back
display-surface-sized buffer with no transform. -/
theorem c6_amended_transform_family (activeLayerId : String) (layer : Layer)
    (dx dy newRotation newScale wheelScale : ℝ) (canvas : Surface) (img : ImageData) :
    (moveCommit activeLayerId layer dx dy).imageData = layer.imageData ∧
    (rotateCommit activeLayerId layer newRotation).imageData = layer.imageData ∧
    (resizeSliderCommit activeLayerId layer newScale).imageData = layer.imageData ∧
    (wheelResizeCommit activeLayerId canvas img wheelScale).transform = none ∧
    (wheelResizeCommit activeLayerId canvas img wheelScale).imageData.map ImageData.width =
      some canvas.width ∧
    (wheelResizeCommit activeLayerId canvas img wheelScale).imageData.map ImageData.height =
      some canvas.height :=
  ⟨rfl, rfl, rfl, rfl, rfl, rfl⟩

/-- C7: on every run, the compositor render effect first clears the whole display
surface to white; when the active layer is visible, has a buffer and composites
without error it then draws exactly that buffer through the layer's (defaulted)
transform with `globalAlpha` = its opacity and composite operation = its blend
mode; and every draw operation it ever emits is for the active layer's id. -/
theorem c7_render_active_only (canvasW canvasH : ℕ) (layers : List Layer)
    (activeLayer : Option String) :
    (renderEffect canvasW canvasH layers activeLayer).ops.take 1 =
      [DrawOp.clearWhite canvasW canvasH] ∧
    (∀ l img, layers.find? (fun l => activeLayer = some l.id) = some l →
      l.visible = true → l.imageData = some img → img.width ≠ 0 → img.height ≠ 0 →
      (renderEffect canvasW canvasH layers activeLayer).ops =
        [DrawOp.clearWhite canvasW canvasH,
         DrawOp.drawLayer l.id img (l.transform.getD defaultTransform) l.opacity
           l.blendMode]) ∧
    (∀ op ∈ (renderEffect canvasW canvasH layers activeLayer).ops,
      ∀ lid img t a b, op = DrawOp.drawLayer lid img t a b → activeLayer = some lid) := by
  refine ⟨?_, ?_, ?_⟩
  · unfold renderEffect compositeLayer
    cases hfind : layers.find? (fun l => activeLayer = some l.id) with
    | none => rfl
    | some l =>
      by_cases hv : l.visible
      · cases him : l.imageData with
        | none => simp [hv, him]
        | some img =>
          by_cases hz : img.width = 0 ∨ img.height = 0
          · simp [hv, him, hz]
          · simp [hv, him, hz]
      · simp [hv]
  · intro l img hfind hv him hw hh
    unfold renderEffect compositeLayer
    rw [hfind]
    simp [hv, him, hw, hh]
  · intro op hop lid img t a b hdraw
    subst hdraw
    revert hop
    unfold renderEffect compositeLayer
    cases hfind : layers.find? (fun l => activeLayer = some l.id) with
    | none =>
      intro hop
      simp at hop
    | some l =>
      have hl : activeLayer = some l.id := by
        have := List.find?_some hfind
        exact of_decide_eq_true this
      by_cases hv : l.visible
      · cases him : l.imageData with
        | none =>
          intro hop
          simp [hv, him] at hop
        | some img2 =>
          by_cases hz : img2.width = 0 ∨ img2.height = 0
          · intro hop
            simp [hv, him, hz] at hop
          · intro hop
            simp [hv, him, hz] at hop
            rw [hl, hop.1]
      · intro hop
        simp [hv] at hop

/-- C7 witness: the theorem's second and third conjuncts applied to a concrete
layer list and active id. -/
theorem c7_witness :
    (renderEffect 400 300 [layerA] (some "layer-1")).ops =
      [DrawOp.clearWhite 400 300,
       DrawOp.drawLayer layerA.id imgA (layerA.transform.getD defaultTransform)
         layerA.opacity layerA.blendMode] :=
  (c7_render_active_only 400 300 [layerA] (some "layer-1")).2.1 layerA imgA
    (by simp [layerA]) rfl rfl (by norm_num [imgA]) (by norm_num [imgA])

/-- C9: whenever the active layer's buffer dimensions make the compositing
operation fail, the render effect catches the failure locally, logs the
size-mismatch message, skips drawing that layer for the frame, and still returns
normally (the clear-to-white is the only drawing operation; no exception
escapes, no user-visible error is produced). -/
theorem c9_mismatch_caught (canvasW canvasH : ℕ) (layers : List Layer)
    (activeLayer : Option String) (l : Layer) (img : ImageData)
    (hfind : layers.find? (fun l => activeLayer = some l.id) = some l)
    (hv : l.visible = true) (him : l.imageData = some img)
    (hmismatch : img.width = 0 ∨ img.height = 0) :
    renderEffect canvasW canvasH layers activeLayer =
      ⟨[DrawOp.clearWhite canvasW canvasH],
       ["ImageData size mismatch for layer: " ++ l.name]⟩ := by
  unfold renderEffect compositeLayer
  rw [hfind]
  simp [hv, him, hmismatch]

/-- C9 witness: the theorem applied to a layer with a zero-sized buffer. -/
theorem c9_witness :
    renderEffect 400 300 [layerZeroImg] (some "layer-2") =
      ⟨[DrawOp.clearWhite 400 300],
       ["ImageData size mismatch for layer: " ++ layerZeroImg.name]⟩ :=
  c9_mismatch_caught 400 300 [layerZeroImg] (some "layer-2") layerZeroImg imgZero
    (by simp [layerZeroImg]) rfl rfl (Or.inl rfl)

/-- C10: a crop gesture whose selection is at most 10 display pixels wide or at
most 10 tall is abandoned at pointer-up: the confirmation dialog is not opened
(`showCropConfirm` is left as it was), no commit is made, and the crop selection
state is cleared. -/
theorem c10_small_crop_abandoned (st : CropState) (cropStart cropEnd : Pt)
    (h1 : st.cropStart = some cropStart) (h2 : st.cropEnd = some cropEnd)
    (hsmall : |cropEnd.x - cropStart.x| ≤ 10 ∨ |cropEnd.y - cropStart.y| ≤ 10) :
    cropMouseUp st =
      ({ st with isCropping := false, cropStart := none, cropEnd := none }, none) := by
  have hc : ¬(10 < |cropEnd.x - cropStart.x| ∧ 10 < |cropEnd.y - cropStart.y|) := by
    rcases hsmall with h | h
    · exact fun hh => absurd hh.1 (not_lt.mpr h)
    · exact fun hh => absurd hh.2 (not_lt.mpr h)
  unfold cropMouseUp
  rw [h1, h2]
  simp [hc]

/-- C10 witness: the theorem applied to a concrete 5 × 20-pixel selection. -/
theorem c10_witness :
    cropMouseUp cropStateSmall =
      ({ cropStateSmall with isCropping := false, cropStart := none, cropEnd := none },
       none) :=
  c10_small_crop_abandoned cropStateSmall ⟨0, 0⟩ ⟨5, 20⟩ rfl rfl
    (Or.inl (by norm_num))

/-- C8 counterexample: the buffer committed by the crop Apply button is not the
selected rectangular region itself — at a concrete input (a 50 × 30 selection on
a 400 × 300 surface) the committed buffer is display-surface-sized, not
region-sized. -/
theorem c8_counterexample :
    (cropApplyCommit "layer-1" canvasB ⟨10, 10⟩ ⟨60, 40⟩).imageData ≠
      some (surfaceGetImageData canvasB 10 10 50 30) := by
  intro h
  have hw := congrArg (fun o => (Option.map ImageData.width o).getD 0) h
  simp only [cropApplyCommit, surfaceGetImageData, canvasB, Option.map_some,
    Option.getD_some] at hw
  norm_num at hw

/-- C8 amended: on every confirmed crop the commit carries no transform (so the
Layer Store's replacement resets the layer's transform state), and the new
buffer is a display-surface-sized readback that holds the selected region of the
rendered surface at its top-left corner over a white fill. -/
theorem c8_amended_crop_commit (activeLayerId : String) (canvas : Surface)
    (cropStart cropEnd : Pt) (layer : Layer) :
    (cropApplyCommit activeLayerId canvas cropStart cropEnd).transform = none ∧
    (updateLayer layer (cropApplyCommit activeLayerId canvas cropStart cropEnd)).transform =
      none ∧
    (cropApplyCommit activeLayerId canvas cropStart cropEnd).imageData.map
      ImageData.width = some canvas.width ∧
    (cropApplyCommit activeLayerId canvas cropStart cropEnd).imageData.map
      ImageData.height = some canvas.height ∧
    (∀ i j, i < toPix |cropEnd.x - cropStart.x| → j < toPix |cropEnd.y - cropStart.y| →
      toPix (min cropStart.x cropEnd.x) + i < canvas.width →
      toPix (min cropStart.y cropEnd.y) + j < canvas.height →
      (committedData (cropApplyCommit activeLayerId canvas cropStart cropEnd)).pix i j =
        canvas.pix (toPix (min cropStart.x cropEnd.x) + i)
          (toPix (min cropStart.y cropEnd.y) + j)) ∧
    (∀ i j, (toPix |cropEnd.x - cropStart.x| ≤ i ∨ toPix |cropEnd.y - cropStart.y| ≤ j) →
      i < canvas.width → j < canvas.height →
      (committedData (cropApplyCommit activeLayerId canvas cropStart cropEnd)).pix i j =
        white) := by
  refine ⟨rfl, rfl, rfl, rfl, ?_, ?_⟩
  · intro i j hi hj hxi hyj
    have hiw : i < canvas.width := lt_of_le_of_lt (Nat.le_add_left i _) hxi
    have hjh : j < canvas.height := lt_of_le_of_lt (Nat.le_add_left j _) hyj
    simp only [committedData, cropApplyCommit, surfaceGetImageData, surfacePutImageData,
      fillWhite, Option.getD_some]
    simp [hi, hj, hiw, hjh, hxi, hyj]
  · intro i j hout hiw hjh
    simp only [committedData, cropApplyCommit, surfaceGetImageData, surfacePutImageData,
      fillWhite, Option.getD_some]
    have hnot : ¬(i < toPix |cropEnd.x - cropStart.x| ∧ j < toPix |cropEnd.y - cropStart.y|) := by
      rcases hout with h | h
      · exact fun hh => absurd hh.1 (not_lt.mpr h)
      · exact fun hh => absurd hh.2 (not_lt.mpr h)
    simp [hiw, hjh, hnot]

/-- C8 amended witness: the theorem applied to a concrete surface, selection and
layer — the commit resets the transform and the committed top-left pixel is the
surface pixel at the selection's top-left corner. -/
theorem c8_witness :
    (updateLayer layerA (cropApplyCommit "layer-1" canvasB ⟨10, 10⟩ ⟨60, 40⟩)).transform =
      none ∧
    (committedData (cropApplyCommit "layer-1" canvasB ⟨10, 10⟩ ⟨60, 40⟩)).pix 0 0 =
      canvasB.pix (toPix (min (10 : ℝ) 60) + 0) (toPix (min (10 : ℝ) 40) + 0) :=
  ⟨(c8_amended_crop_commit "layer-1" canvasB ⟨10, 10⟩ ⟨60, 40⟩ layerA).2.1,
   (c8_amended_crop_commit "layer-1" canvasB ⟨10, 10⟩ ⟨60, 40⟩ layerA).2.2.2.2.1 0 0
     (by norm_num [toPix, abs_of_nonneg]) (by norm_num [toPix, abs_of_nonneg])
     (by norm_num [toPix, canvasB]) (by norm_num [toPix, canvasB])⟩

end Creaza
